import Mathlib

/-!
Verification of the excel_generation repository (export/import pipelines)
against its natural-language specification.

The Python sources are shallowly embedded: pure helpers become Lean
functions, the stateful upload pipeline becomes explicit state passing over
an environment of stage outcomes, and exceptions become `Except` /
structured results, mirroring the source control flow.
-/

namespace ExcelGen

/-! ## Column codec

`_get_column_letter` appears twice in the sources, once in
`generator_service.py` and once in `upload_service.py`, with identical
bodies:

```python
def _get_column_letter(self, col_idx: int) -> str:
    result = ""
    col_idx += 1  # Excel columns are 1-based
    while col_idx > 0:
        col_idx -= 1
        result = chr(col_idx % 26 + ord('A')) + result
        col_idx //= 26
    return result
```

The while loop is embedded as a fuel-indexed structural recursion on the
loop variable: at loop entry the variable holds `n`; if `n = 0` the loop
stops, otherwise the body decrements to `m = n - 1`, prepends
`chr(m % 26 + 65)` and continues with `m / 26`.  Since `m / 26 ≤ m < n`,
the loop variable strictly decreases, so `n` itself is enough fuel;
`getColumnLetterFuel_spec` below proves the fuel never runs out.
-/

/-- The `while col_idx > 0` loop of `_get_column_letter`: first argument is
fuel, second the loop variable, third the accumulated character list that
`result` is built from by prepending. -/
def getColumnLetterFuel : Nat → Nat → List Char → List Char
  | 0, _, acc => acc
  | _ + 1, 0, acc => acc
  | f + 1, m + 1, acc => getColumnLetterFuel f (m / 26) (Char.ofNat (m % 26 + 65) :: acc)

/-- The loop run to completion: fuel = initial loop-variable value. -/
def getColumnLetterLoop (n : Nat) (acc : List Char) : List Char :=
  getColumnLetterFuel n n acc

/-- Embedding of `ExcelGeneratorService._get_column_letter` from
`services/generator_service.py` lines 219-226. -/
def generatorGetColumnLetter (colIdx : Nat) : String :=
  String.mk (getColumnLetterLoop (colIdx + 1) [])

/-- Embedding of `ExcelUploadService._get_column_letter` from
`services/upload_service.py` lines 89-96 (token-identical body). -/
def uploadGetColumnLetter (colIdx : Nat) : String :=
  String.mk (getColumnLetterLoop (colIdx + 1) [])

/-- Modelled from the spec: the repository has no `letters_to_index`
function under `src/`; the spec's Column Codec section requires an exact
inverse of `index_to_letters`.  Decoding is the bijective base-26 read of
the letters (`A` = 1, ..., `Z` = 26), minus one to return to the zero-based
column index. -/
def lettersToIndex (s : String) : Nat :=
  (s.data.foldl (fun acc c => acc * 26 + (c.toNat - 64)) 0) - 1

/-- Bijective base-26 decode of a character list starting from
accumulator `v`. -/
def decodeFrom (v : Nat) (l : List Char) : Nat :=
  l.foldl (fun acc c => acc * 26 + (c.toNat - 64)) v

example : generatorGetColumnLetter 0 = "A" := by decide
example : generatorGetColumnLetter 25 = "Z" := by decide
example : generatorGetColumnLetter 26 = "AA" := by decide
example : generatorGetColumnLetter 27 = "AB" := by decide
example : generatorGetColumnLetter 51 = "AZ" := by decide
example : generatorGetColumnLetter 52 = "BA" := by decide
example : generatorGetColumnLetter 701 = "ZZ" := by decide
example : generatorGetColumnLetter 702 = "AAA" := by decide
example : lettersToIndex "AAA" = 702 := by decide

theorem getColumnLetterFuel_zero (f : Nat) (acc : List Char) :
    getColumnLetterFuel f 0 acc = acc := by
  cases f <;> rfl

/-- Fuel irrelevance: any fuel at least the loop variable runs the loop to
completion. -/
theorem getColumnLetterFuel_spec (f : Nat) :
    ∀ n acc, n ≤ f → getColumnLetterFuel f n acc = getColumnLetterLoop n acc := by
  induction f using Nat.strong_induction_on with
  | _ f ih =>
    intro n acc h
    match n, h with
    | 0, _ => rw [getColumnLetterFuel_zero, getColumnLetterLoop, getColumnLetterFuel_zero]
    | m + 1, h =>
      match f, h with
      | g + 1, h =>
        show getColumnLetterFuel g (m / 26) _ = getColumnLetterFuel (m + 1) (m + 1) acc
        have hd : m / 26 ≤ m := Nat.div_le_self m 26
        show _ = getColumnLetterFuel m (m / 26) (Char.ofNat (m % 26 + 65) :: acc)
        rw [ih g (Nat.lt_succ_self g) (m / 26) _ (by omega),
          ih m (by omega) (m / 26) _ hd]

/-- Prepending to the accumulator appends to the produced letter list. -/
theorem getColumnLetterFuel_append (f : Nat) :
    ∀ n acc, getColumnLetterFuel f n acc = getColumnLetterFuel f n [] ++ acc := by
  induction f with
  | zero => intro n acc; rfl
  | succ f ih =>
    intro n acc
    match n with
    | 0 => rfl
    | m + 1 =>
      show getColumnLetterFuel f (m / 26) _ = getColumnLetterFuel f (m / 26) _ ++ acc
      rw [ih (m / 26) (Char.ofNat (m % 26 + 65) :: acc),
        ih (m / 26) [Char.ofNat (m % 26 + 65)]]
      simp

theorem decodeFrom_append (v : Nat) (l₁ l₂ : List Char) :
    decodeFrom v (l₁ ++ l₂) = decodeFrom (decodeFrom v l₁) l₂ := by
  simp [decodeFrom, List.foldl_append]

theorem toNat_ofNat_letter (k : Nat) (h : k < 26) :
    (Char.ofNat (k + 65)).toNat = k + 65 := by
  interval_cases k <;> decide

/-- Decoding the loop's output recovers the 1-based loop input. -/
theorem decode_loop (f : Nat) :
    ∀ n, 0 < n → n ≤ f → decodeFrom 0 (getColumnLetterFuel f n []) = n := by
  induction f with
  | zero => intro n h0 h1; omega
  | succ f ih =>
    intro n h0 h1
    match n with
    | m + 1 =>
      show decodeFrom 0 (getColumnLetterFuel f (m / 26) [Char.ofNat (m % 26 + 65)]) = m + 1
      rw [getColumnLetterFuel_append f (m / 26) [Char.ofNat (m % 26 + 65)]]
      rw [decodeFrom_append]
      have hmod : m % 26 < 26 := Nat.mod_lt _ (by norm_num)
      rcases Nat.eq_zero_or_pos (m / 26) with hz | hpos
      · have hm : m < 26 := by
          rcases Nat.lt_or_ge m 26 with h | h
          · exact h
          · exact absurd hz (by have := Nat.div_le_div_right (c := 26) h; simp at this; omega)
        rw [hz, getColumnLetterFuel_zero]
        simp [decodeFrom, toNat_ofNat_letter (m % 26) hmod]
        omega
      · rw [ih (m / 26) hpos (by have := Nat.div_le_self m 26; omega)]
        simp [decodeFrom, toNat_ofNat_letter (m % 26) hmod]
        have := Nat.div_add_mod m 26
        omega

theorem lettersToIndex_generator (i : Nat) :
    lettersToIndex (generatorGetColumnLetter i) = i := by
  have h := decode_loop (i + 1) (i + 1) (Nat.succ_pos i) (Nat.le_refl _)
  simp only [lettersToIndex, generatorGetColumnLetter, getColumnLetterLoop]
  simp only [decodeFrom] at h
  simp [h]

/-! ## Python scalar values and `_format_cell_value`

`_format_cell_value` (generator_service.py lines 209-217):

```python
def _format_cell_value(self, value: Any) -> str:
    if value is None:
        return ""
    elif isinstance(value, (int, float)):
        return str(value)
    elif isinstance(value, bool):
        return "Sí" if value else "No"
    else:
        return str(value)
```

The embedding keeps Python's runtime type semantics: `bool` is a subclass
of `int`, so `isinstance(True, (int, float))` is `True`, and
`str(True) = "True"`.  Floats are carried with their `str` representation
as data, since only that representation is observable here. -/

/-- A Python scalar value as it reaches the export cell formatter. -/
inductive PyValue where
  | pyNone
  | pyBool (b : Bool)
  | pyInt (n : Int)
  | pyFloat (repr : String)
  | pyStr (s : String)
  deriving DecidableEq

/-- Python `str(value)` on the scalars above. -/
def pyValueStr : PyValue → String
  | .pyNone => "None"
  | .pyBool true => "True"
  | .pyBool false => "False"
  | .pyInt n => toString n
  | .pyFloat r => r
  | .pyStr s => s

/-- Python `isinstance(value, (int, float))`: true for ints, floats and
bools, because `bool` subclasses `int`. -/
def isinstanceIntFloat : PyValue → Bool
  | .pyBool _ => true
  | .pyInt _ => true
  | .pyFloat _ => true
  | _ => false

/-- Python `isinstance(value, bool)`. -/
def isinstanceBool : PyValue → Bool
  | .pyBool _ => true
  | _ => false

/-- Python truthiness of a `bool` (only case the source uses). -/
def pyValueTruthy : PyValue → Bool
  | .pyBool b => b
  | _ => false

/-- Embedding of `ExcelGeneratorService._format_cell_value`, branch for branch. -/
def formatCellValue (value : PyValue) : String :=
  if value = .pyNone then ""
  else if isinstanceIntFloat value then pyValueStr value
  else if isinstanceBool value then (if pyValueTruthy value then "Sí" else "No")
  else pyValueStr value

example : formatCellValue .pyNone = "" := by decide
example : formatCellValue (.pyInt 7) = "7" := by decide
example : formatCellValue (.pyBool true) = "True" := by decide
example : formatCellValue (.pyStr "x") = "x" := by decide

/-! ## `_get_column_db_type` (upload_service.py lines 180-207)

The information-schema query result is embedded as `Option String`
(`None` when the column is not found in the destination table, otherwise
`row.data_type`); the `pg_types` dict is embedded as an association list
and `dict.get(key, "text")` as `List.lookup` with default. -/

/-- The `pg_types` mapping of upload_service.py lines 192-206. -/
def pgTypes : List (String × String) :=
  [("integer", "integer"),
   ("bigint", "bigint"),
   ("smallint", "smallint"),
   ("numeric", "numeric"),
   ("double precision", "double precision"),
   ("real", "real"),
   ("boolean", "boolean"),
   ("date", "date"),
   ("timestamp without time zone", "timestamp"),
   ("timestamp with time zone", "timestamptz"),
   ("character varying", "varchar"),
   ("character", "char"),
   ("text", "text")]

/-- Embedding of `ExcelUploadService._get_column_db_type`: `queryResult` is the
`data_type` of the first row of the information-schema lookup, or `none`
when the column is absent. -/
def getColumnDbType (queryResult : Option String) : String :=
  match queryResult with
  | none => "text"
  | some dataType => (pgTypes.lookup dataType).getD "text"

example : getColumnDbType none = "text" := by decide
example : getColumnDbType (some "character varying") = "varchar" := by decide
example : getColumnDbType (some "json") = "text" := by decide

/-! ## `DatabaseManager.fetch_data` query construction (utils/db.py lines 63-106)

```python
fields_str = ", ".join(f'"{field}"' for field in fields)
query_str = f'SELECT {fields_str} FROM "{table_name}"'
where_conditions = []
params = {}
for key, value in filters.items():
    if value is not None:
        where_conditions.append(f'"{key}" = :{key}')
        params[key] = value
if where_conditions:
    query_str += " WHERE " + " AND ".join(where_conditions)
query_str += " LIMIT 200000"
```

The filter dict is embedded as an insertion-ordered association list with
optional values; the loop accumulating `where_conditions` and `params`
becomes a fold over that list.  The filter value type is left abstract. -/

/-- SQL double-quoting of an identifier, as the f-strings do. -/
def dquote (s : String) : String := "\"" ++ s ++ "\""

/-- One `"key" = :key` condition as built inside the loop. -/
def fetchCond (key : String) : String := dquote key ++ " = :" ++ key

/-- The query string and bound parameters `fetch_data` hands to the
database session. -/
structure FetchQuery (α : Type) where
  queryStr : String
  params : List (String × α)

/-- The `for key, value in filters.items()` loop body. -/
def fetchFoldStep {α : Type} (acc : List String × List (String × α))
    (kv : String × Option α) : List String × List (String × α) :=
  match kv.2 with
  | some v => (acc.1 ++ [fetchCond kv.1], acc.2 ++ [(kv.1, v)])
  | none => acc

/-- Embedding of `DatabaseManager.fetch_data`, restricted to the query it builds (the
execution and row conversion are the session's job). -/
def buildFetchQuery {α : Type} (tableName : String) (fields : List String)
    (filters : List (String × Option α)) : FetchQuery α :=
  let fieldsStr := String.intercalate ", " (fields.map dquote)
  let base := "SELECT " ++ fieldsStr ++ " FROM " ++ dquote tableName
  let condsParams := filters.foldl fetchFoldStep ([], [])
  let withWhere :=
    if condsParams.1.isEmpty then base
    else base ++ " WHERE " ++ String.intercalate " AND " condsParams.1
  ⟨withWhere ++ " LIMIT 200000", condsParams.2⟩

/-- The filter entries that actually participate in the predicate: those
whose value is not `None`. -/
def activeFilters {α : Type} (filters : List (String × Option α)) :
    List (String × α) :=
  filters.filterMap (fun kv => kv.2.map (fun v => (kv.1, v)))

theorem fetchFold_eq {α : Type} (filters : List (String × Option α)) :
    ∀ conds params, filters.foldl fetchFoldStep (conds, params) =
      (conds ++ (activeFilters filters).map (fun kv => fetchCond kv.1),
        params ++ activeFilters filters) := by
  induction filters with
  | nil => intro conds params; simp [activeFilters]
  | cons kv rest ih =>
    intro conds params
    match hv : kv.2 with
    | some v =>
      simp only [List.foldl_cons, fetchFoldStep, hv]
      rw [ih]
      simp [activeFilters, hv]
    | none =>
      simp only [List.foldl_cons, fetchFoldStep, hv]
      rw [ih]
      simp [activeFilters, hv]

example :
    (buildFetchQuery "orders" ["id", "name"]
      [("paid", some "true"), ("note", (none : Option String))]).queryStr =
    "SELECT \"id\", \"name\" FROM \"orders\" WHERE \"paid\" = :paid LIMIT 200000" := by
  decide

example :
    (buildFetchQuery "orders" ["id"] ([] : List (String × Option Nat))).queryStr =
    "SELECT \"id\" FROM \"orders\" LIMIT 200000" := by
  decide

/-! ## Spreadsheet parser `_read_excel_file_ironxl` (upload_service.py lines 25-87)

A worksheet is embedded as a grid of optional cell string values (`none`
for an empty cell, `some s` with `s` the `str()` of the cell value) with
explicit `RowCount`/`ColumnCount`.  Off-grid addresses read as empty
cells.  Python `dict` insertion is embedded as an in-place association
list update; `str(v).strip()` is embedded as `pyStrip`, dropping leading
and trailing whitespace characters from the character list. -/

/-- The whitespace characters Python `str.strip()` removes (the ones that
occur in practice). -/
def isSpaceChar (c : Char) : Bool :=
  c == ' ' || c == '\t' || c == '\n' || c == '\r' || c == '\x0b' || c == '\x0c'

/-- Python `s.strip()`. -/
def pyStrip (s : String) : String :=
  String.mk (((s.data.dropWhile isSpaceChar).reverse.dropWhile isSpaceChar).reverse)

/-- A cell value as observed through `cell.Value`. -/
abbrev Cell := Option String

/-- A worksheet grid, row-major. -/
abbrev Grid := List (List Cell)

/-- A parsed row (Python dict, insertion-ordered). -/
abbrev ParsedRow := List (String × String)

def cellAt (grid : Grid) (r c : Nat) : Cell := (grid.getD r []).getD c none

/-- Python `cell_value is not None and str(cell_value).strip()` as a Bool. -/
def cellNonBlank : Cell → Bool
  | none => false
  | some s => !(pyStrip s == "")

/-- Python `str(cell_value).strip()` of a cell (empty string for `None`). -/
def cellStrip : Cell → String
  | none => ""
  | some s => pyStrip s

/-- Python dict assignment `d[k] = v` on an insertion-ordered
association list. -/
def dictInsert (d : ParsedRow) (k v : String) : ParsedRow :=
  if d.any (fun p => p.1 == k) then
    d.map (fun p => if p.1 == k then (k, v) else p)
  else d ++ [(k, v)]

/-- The header-collection pass over row 1 (`first_row` branch): a non-blank
cell contributes its stripped content, a blank cell contributes `""`. -/
def collectHeaders (grid : Grid) (colCount : Nat) : List String :=
  (List.range colCount).map (fun c =>
    if cellNonBlank (cellAt grid 0 c) then cellStrip (cellAt grid 0 c) else "")

/-- One iteration of the inner column loop over a data row: `acc` is the
pair of the accumulated `row_data` dict and the `has_data` flag.  A
non-blank cell is keyed only when
`col_index < len(headers) and headers[col_index]`. -/
def processRowStep (headers : List String) (grid : Grid) (r : Nat)
    (acc : ParsedRow × Bool) (c : Nat) : ParsedRow × Bool :=
  if cellNonBlank (cellAt grid r c) then
    (if c < headers.length ∧ headers.getD c "" ≠ "" then
      dictInsert acc.1 (headers.getD c "") (cellStrip (cellAt grid r c))
    else acc.1, true)
  else acc

/-- The inner column loop over a data row: returns the accumulated
`row_data` dict and the `has_data` flag. -/
def processRow (headers : List String) (grid : Grid) (colCount r : Nat) :
    ParsedRow × Bool :=
  (List.range colCount).foldl (processRowStep headers grid r) ([], false)

/-- The data-row portion of the `for row_index in range(...)` loop, with
the two `elif` arms: append when the row has data and produced a dict,
break when the row is all-blank and some data was already accepted,
otherwise continue.  `proc r` is the column loop on row `r`. -/
def readRowsLoop (proc : Nat → ParsedRow × Bool) :
    Nat → Nat → List ParsedRow → List ParsedRow
  | 0, _, data => data
  | n + 1, r, data =>
    let pr := proc r
    if pr.2 && !pr.1.isEmpty then readRowsLoop proc n (r + 1) (data ++ [pr.1])
    else if !pr.2 && !data.isEmpty then data
    else readRowsLoop proc n (r + 1) data

/-- Embedding of `_read_excel_file_ironxl` over an already-loaded grid: collects and
filters headers from row 1, scans the remaining `RowCount - 1` rows, and
raises (as `Except.error`, with the outer handler's message wrapping) when
no valid headers or no data rows are found. -/
def readExcelFileIronxl (grid : Grid) (rowCount colCount : Nat) :
    Except String (List ParsedRow) :=
  if rowCount = 0 then
    .error "Error leyendo archivo Excel: El archivo Excel está vacío o no contiene datos válidos"
  else
    let headers := (collectHeaders grid colCount).filter (fun h => h ≠ "")
    if headers.isEmpty then
      .error "Error leyendo archivo Excel: No se encontraron headers válidos en el archivo Excel"
    else
      let data := readRowsLoop (processRow headers grid colCount) (rowCount - 1) 1 []
      if data.isEmpty then
        .error "Error leyendo archivo Excel: El archivo Excel está vacío o no contiene datos válidos"
      else .ok data

/-- Modelled from the claim under test: the same parse, but with every
non-blank data cell keyed by the header collected at the *same column
position* as that cell (blank-header or out-of-range positions skipped),
i.e. indexing into the unfiltered positional header list of row 1. -/
def claimProcessRow (rawHeaders : List String) (grid : Grid) (colCount r : Nat) :
    ParsedRow × Bool :=
  (List.range colCount).foldl (processRowStep rawHeaders grid r) ([], false)

/-- Modelled from the claim under test: the parse pipeline with
positionally-keyed rows (see `claimProcessRow`). -/
def claimReadExcel (grid : Grid) (rowCount colCount : Nat) :
    Except String (List ParsedRow) :=
  if rowCount = 0 then
    .error "Error leyendo archivo Excel: El archivo Excel está vacío o no contiene datos válidos"
  else
    let rawHeaders := collectHeaders grid colCount
    if (rawHeaders.filter (fun h => h ≠ "")).isEmpty then
      .error "Error leyendo archivo Excel: No se encontraron headers válidos en el archivo Excel"
    else
      let data := readRowsLoop (claimProcessRow rawHeaders grid colCount) (rowCount - 1) 1 []
      if data.isEmpty then
        .error "Error leyendo archivo Excel: El archivo Excel está vacío o no contiene datos válidos"
      else .ok data

/-- Modelled from the amended claim: non-blank data cells are keyed by the
*filtered* header list at the cell's own column index, any position at or
beyond its length being skipped (the filtered list has no blank entries,
so no blank-header guard is needed).  One iteration: -/
def amendedProcessRowStep (headers : List String) (grid : Grid) (r : Nat)
    (acc : ParsedRow × Bool) (c : Nat) : ParsedRow × Bool :=
  if cellNonBlank (cellAt grid r c) then
    (if c < headers.length then
      dictInsert acc.1 (headers.getD c "") (cellStrip (cellAt grid r c))
    else acc.1, true)
  else acc

/-- Modelled from the amended claim: the column loop with rows keyed by
the filtered header list positionally. -/
def amendedProcessRow (headers : List String) (grid : Grid) (colCount r : Nat) :
    ParsedRow × Bool :=
  (List.range colCount).foldl (amendedProcessRowStep headers grid r) ([], false)

/-- Modelled from the amended claim: the parse pipeline with rows keyed by
the filtered header list (see `amendedProcessRow`). -/
def amendedReadExcel (grid : Grid) (rowCount colCount : Nat) :
    Except String (List ParsedRow) :=
  if rowCount = 0 then
    .error "Error leyendo archivo Excel: El archivo Excel está vacío o no contiene datos válidos"
  else
    let headers := (collectHeaders grid colCount).filter (fun h => h ≠ "")
    if headers.isEmpty then
      .error "Error leyendo archivo Excel: No se encontraron headers válidos en el archivo Excel"
    else
      let data := readRowsLoop (amendedProcessRow headers grid colCount) (rowCount - 1) 1 []
      if data.isEmpty then
        .error "Error leyendo archivo Excel: El archivo Excel está vacío o no contiene datos válidos"
      else .ok data

/-- A grid whose first header cell is blank: row 1 is `[blank, "B"]`, the
data row holds `"x"` under the blank header and `"y"` under `"B"`. -/
def gridBlankHeader : Grid := [[none, some "B"], [some "x", some "y"]]

example : readExcelFileIronxl gridBlankHeader 2 2 = .ok [[("B", "x")]] := rfl
example : claimReadExcel gridBlankHeader 2 2 = .ok [[("B", "y")]] := rfl
example : amendedReadExcel gridBlankHeader 2 2 = .ok [[("B", "x")]] := rfl

/-! ## `_write_data_to_worksheet` (generator_service.py lines 162-207)

The worksheet is embedded as the ordered list of `(address, value)` cell
writes.  Header styling (lines 169-175) is a `try` block whose `except`
clause catches **only** `AttributeError`; the outcome of attempting the
four style assignments on column `c` is an oracle `styleOf c`, either
`none` (no exception), an `AttributeError`, or some other exception.  A
non-`AttributeError` exception escapes the inner `try`, is caught by the
function-level handler and re-raised as
`ExcelGenerationError(f"Error escribiendo datos: {str(e)}")`, embedded as
the `Option String` error component.  Data values go through
`row_data.get(field, "")` and `_format_cell_value`; chunking (lines
178-192) only affects logging, not the sequence of writes, so it is not
part of the state. -/

/-- A Python exception as relevant to the styling `try`/`except`: either
an `AttributeError` or any other exception class. -/
inductive PyExc where
  | attributeError (msg : String)
  | otherError (msg : String)
  deriving DecidableEq

/-- Message of an exception, as `str(e)` produces it. -/
def pyExcMsg : PyExc → String
  | .attributeError m => m
  | .otherError m => m

/-- Whether an exception kind escapes an `except AttributeError` handler. -/
def escapesAttributeHandler : Option PyExc → Bool
  | some (.otherError _) => true
  | _ => false

/-- The header-writing loop (lines 165-175): writes each field name at
`<letter>1`, then attempts styling; an `AttributeError` is swallowed, any
other exception aborts the loop. -/
def writeHeaders (styleOf : Nat → Option PyExc) :
    List String → Nat → List (String × String) →
    List (String × String) × Option PyExc
  | [], _, written => (written, none)
  | field :: rest, c, written =>
    let written' := written ++ [(generatorGetColumnLetter c ++ "1", field)]
    match styleOf c with
    | some (.otherError m) => (written', some (.otherError m))
    | _ => writeHeaders styleOf rest (c + 1) written'

/-- An export data row: the dict produced by the fetch. -/
abbrev DataRow := List (String × PyValue)

/-- Python `row_data.get(field, "")` followed by `_format_cell_value`. -/
def formattedCell (row : DataRow) (field : String) : String :=
  formatCellValue ((row.lookup field).getD (.pyStr ""))

/-- The inner `for col_idx, field in enumerate(fields)` loop of the data
pass, writing one row at spreadsheet row `rowIdx`. -/
def writeRowCells : List String → Nat → DataRow → Nat → List (String × String)
  | [], _, _, _ => []
  | field :: rest, c, row, rowIdx =>
    (generatorGetColumnLetter c ++ toString rowIdx, formattedCell row field) ::
      writeRowCells rest (c + 1) row rowIdx

/-- The data pass (lines 177-192): rows written in order starting at
spreadsheet row 2. -/
def writeDataRowsLoop : List DataRow → List String → Nat → List (String × String)
  | [], _, _ => []
  | row :: rest, fields, rowIdx =>
    writeRowCells fields 0 row rowIdx ++ writeDataRowsLoop rest fields (rowIdx + 1)

/-- Embedding of `_write_data_to_worksheet`: header pass, then (only if the header pass
did not raise) the data pass; a non-`AttributeError` styling exception
surfaces as the wrapped `ExcelGenerationError` message. -/
def writeDataToWorksheet (fields : List String) (data : List DataRow)
    (styleOf : Nat → Option PyExc) :
    List (String × String) × Option String :=
  match writeHeaders styleOf fields 0 [] with
  | (written, some e) => (written, some ("Error escribiendo datos: " ++ pyExcMsg e))
  | (written, none) => (written ++ writeDataRowsLoop data fields 2, none)

example :
    writeDataToWorksheet ["a", "b"] [[("a", .pyInt 1)]] (fun _ => none) =
      ([("A1", "a"), ("B1", "b"), ("A2", "1"), ("B2", "")], none) := rfl

example :
    writeDataToWorksheet ["a", "b"] [[("a", .pyInt 1)]]
      (fun _ => some (.attributeError "Style")) =
      ([("A1", "a"), ("B1", "b"), ("A2", "1"), ("B2", "")], none) := rfl

example :
    writeDataToWorksheet ["a", "b"] [[("a", .pyInt 1)]]
      (fun c => if c = 0 then some (.otherError "boom") else none) =
      ([("A1", "a")], some "Error escribiendo datos: boom") := rfl

/-! ## Upload pipeline `upload_excel_to_table` (upload_service.py lines 98-178)

The pipeline's externally-effectful stages — CSV serialization, staging
DDL, `COPY`, the cast-merge `INSERT`, the final `DROP` — are embedded as
an environment of stage outcomes (`Except String Unit`, the error being
`str(e)` of the exception the stage would raise).  Database state is
tracked as the single observable bit the claims need: whether
`staging_<table>_upsert` exists.  The whole body sits inside one
`try`/`except Exception`, whose handler returns the structured failure
dict; control reaching a stage requires every earlier stage to have
succeeded, exactly as in the source. -/

/-- The structured result dict of `upload_excel_to_table`. -/
structure UploadResult where
  success : Bool
  message : String
  rows_processed : Nat
  errors : Option (List String)
  deriving DecidableEq

/-- Outcomes of the externally-effectful stages of one upload. -/
structure UploadEnv where
  /-- Result of `_read_excel_file_ironxl` (stage 1); the error is the
  `ValidationError` message it raises with. -/
  parseResult : Except String (List ParsedRow)
  /-- Writing the temporary CSV (stage 2). -/
  csvOutcome : Except String Unit
  /-- The `DROP IF EXISTS` + `CREATE TABLE` staging transaction
  (stage 3): on success the staging table exists; on failure the
  transaction rolls back. -/
  stageOutcome : Except String Unit
  /-- The `COPY` bulk load (stage 4). -/
  copyOutcome : Except String Unit
  /-- The cast-merge `INSERT ... ON CONFLICT` transaction (stage 5). -/
  mergeOutcome : Except String Unit
  /-- The final `DROP TABLE IF EXISTS` (stage 6). -/
  dropOutcome : Except String Unit

/-- The `except Exception as e` handler (lines 171-178): structured
failure, zero rows, the error detail in a one-element list. -/
def uploadFailure (msg : String) : UploadResult :=
  { success := false
    message := "Error en carga COPY+upsert: " ++ msg
    rows_processed := 0
    errors := some [msg] }

/-- Embedding of `upload_excel_to_table`: returns the structured result and the final
state of the staging-table-exists bit, starting from `stagingBefore`
(whether a staging table for this destination already existed). -/
def uploadExcelToTable (env : UploadEnv) (stagingBefore : Bool) :
    UploadResult × Bool :=
  match env.parseResult with
  | .error e => (uploadFailure e, stagingBefore)
  | .ok rows =>
    if rows.isEmpty then (uploadFailure "El archivo Excel está vacío", stagingBefore)
    else
      match env.csvOutcome with
      | .error e => (uploadFailure e, stagingBefore)
      | .ok _ =>
        match env.stageOutcome with
        | .error e => (uploadFailure e, stagingBefore)
        | .ok _ =>
          match env.copyOutcome with
          | .error e => (uploadFailure e, true)
          | .ok _ =>
            match env.mergeOutcome with
            | .error e => (uploadFailure e, true)
            | .ok _ =>
              match env.dropOutcome with
              | .error e => (uploadFailure e, true)
              | .ok _ =>
                ({ success := true
                   message := "Archivo cargado y upsert masivo realizado con COPY (" ++
                     toString rows.length ++ " filas)"
                   rows_processed := rows.length
                   errors := none }, false)

/-- An environment in which every stage succeeds on a one-row parse. -/
def envAllOk : UploadEnv :=
  { parseResult := .ok [[("id", "1")]]
    csvOutcome := .ok ()
    stageOutcome := .ok ()
    copyOutcome := .ok ()
    mergeOutcome := .ok ()
    dropOutcome := .ok () }

/-- The all-success environment with the cast-merge stage failing. -/
def envMergeFails : UploadEnv :=
  { envAllOk with mergeOutcome := .error "column \"x\" does not exist" }

example : (uploadExcelToTable envAllOk false).2 = false := rfl
example : (uploadExcelToTable envMergeFails false).2 = true := rfl
example : (uploadExcelToTable envMergeFails false).1.success = false := rfl

/-! ## Export validation `_validate_fields` and `generate_excel`
(generator_service.py lines 21-36 and 86-95)

```python
async def _validate_fields(self, table, fields):
    try:
        table_columns = await self.db_manager.get_table_columns(table)
        invalid_fields = [field for field in fields if field not in table_columns]
        if invalid_fields:
            raise ExcelGenerationError(
                f"Campos inválidos para tabla {table}: {invalid_fields}"
            )
    except DatabaseError as e:
        raise ExcelGenerationError(f"Error validando campos: {str(e)}")
```

The error taxonomy of `utils/error_handling.py` distinguishes, among
others, `ExcelGenerationError` (the base) and its subclass
`ValidationError`; the embedding records which class is raised.  Python's
f-string rendering of the `invalid_fields` list
(`['a', 'b']`, single-quoted, comma-space separated) is reproduced by
`pyListRepr`. -/

/-- The exception classes of `utils/error_handling.py` that the export
path can raise, by dynamic class. -/
inductive ExcException where
  | excelGenerationError (msg : String)
  | validationError (msg : String)
  | databaseError (msg : String)
  deriving DecidableEq

/-- Python `str(e)` of an exception: its message. -/
def excMsg : ExcException → String
  | .excelGenerationError m => m
  | .validationError m => m
  | .databaseError m => m

/-- A single-quote character, as Python list reprs use. -/
def pyQuote : String := String.singleton (Char.ofNat 39)

/-- Python `", ".join(...)` semantics. -/
def joinComma : List String → String
  | [] => ""
  | [x] => x
  | x :: y :: rest => x ++ ", " ++ joinComma (y :: rest)

/-- Python `str` of a list of strings, e.g. a two-element list renders as
`[` quote `a` quote `, ` quote `b` quote `]`. -/
def pyListRepr (xs : List String) : String :=
  "[" ++ joinComma (xs.map (fun x => pyQuote ++ x ++ pyQuote)) ++ "]"

/-- Embedding of `ExcelGeneratorService._validate_fields`: `tableColumns` is the
outcome of `get_table_columns` (a `DatabaseError` message on failure). -/
def validateFields (tableColumns : Except String (List String))
    (table : String) (fields : List String) : Except ExcException Unit :=
  match tableColumns with
  | .error e => .error (.excelGenerationError ("Error validando campos: " ++ e))
  | .ok cols =>
    let invalid := fields.filter (fun f => !(cols.contains f))
    if invalid.isEmpty then .ok ()
    else .error (.excelGenerationError
      ("Campos inválidos para tabla " ++ table ++ ": " ++ pyListRepr invalid))

/-- Outcomes of the export pipeline's external stages. -/
structure GenerateEnv where
  /-- The `get_table_columns` result (`DatabaseError` message on failure). -/
  tableColumns : Except String (List String)
  /-- The `db_manager.fetch_data` result (`DatabaseError` message on failure). -/
  fetchOutcome : Except String (List DataRow)
  /-- The `_create_excel_file` outcome (an arbitrary exception message on failure). -/
  createOutcome : Except String Unit

/-- What `generate_excel` did: whether a data-fetch query was issued, and
the outcome (an exception or success). -/
structure GenerateTrace where
  fetchIssued : Bool
  result : Except ExcException Unit

/-- Embedding of `ExcelGeneratorService.generate_excel`: validate, fetch, create, with
each helper's wrapping and the function-level
`raise ExcelGenerationError(f"Error generando Excel: {str(e)}")`. -/
def generateExcel (env : GenerateEnv) (table : String) (fields : List String) :
    GenerateTrace :=
  match validateFields env.tableColumns table fields with
  | .error e =>
    { fetchIssued := false
      result := .error (.excelGenerationError ("Error generando Excel: " ++ excMsg e)) }
  | .ok _ =>
    match env.fetchOutcome with
    | .error e =>
      { fetchIssued := true
        result := .error (.excelGenerationError
          ("Error generando Excel: " ++ "Error obteniendo datos: " ++ e)) }
    | .ok _ =>
      match env.createOutcome with
      | .error e =>
        { fetchIssued := true
          result := .error (.excelGenerationError
            ("Error generando Excel: " ++ "Error creando Excel: " ++ e)) }
      | .ok _ => { fetchIssued := true, result := .ok () }

/-- Whether a trace ended in a raised `ValidationError` (the subclass). -/
def raisedValidationError (t : GenerateTrace) : Bool :=
  match t.result with
  | .error (.validationError _) => true
  | _ => false

/-- Substring test on character lists: does the second list start with the
first? -/
def charsStartWith : List Char → List Char → Bool
  | [], _ => true
  | _ :: _, [] => false
  | a :: as, b :: bs => a == b && charsStartWith as bs

/-- Substring test on character lists: does the needle occur anywhere? -/
def charsContain (needle : List Char) : List Char → Bool
  | [] => charsStartWith needle []
  | c :: rest => charsStartWith needle (c :: rest) || charsContain needle rest

/-- Substring occurrence on strings. -/
def strContainsSub (hay needle : String) : Bool :=
  charsContain needle.data hay.data

/-- The export environment of the concrete scenario: the table has the
single column `id`. -/
def envExportIdOnly : GenerateEnv :=
  { tableColumns := .ok ["id"]
    fetchOutcome := .ok []
    createOutcome := .ok () }

example :
    (generateExcel envExportIdOnly "t" ["id", "bogus"]).result =
      .error (.excelGenerationError
        ("Error generando Excel: Campos inválidos para tabla t: [" ++
          pyQuote ++ "bogus" ++ pyQuote ++ "]")) := rfl

example : (generateExcel envExportIdOnly "t" ["id", "bogus"]).fetchIssued = false := rfl
example : raisedValidationError (generateExcel envExportIdOnly "t" ["id", "bogus"]) = false := rfl
example : strContainsSub "abcdef" "cde" = true := rfl
example : strContainsSub "abcdef" "cdf" = false := rfl


/-! ## Claim theorems -/

/-- C1: for every non-negative integer `i`, `_get_column_letter(i)` is the
bijective base-26 spreadsheet column label (0 ↦ "A", 25 ↦ "Z", 26 ↦ "AA"),
and decoding that label with the inverse letters-to-index function yields
`i` again; the encoding is injective. -/
theorem C1_column_codec_roundtrip :
    (generatorGetColumnLetter 0 = "A" ∧ generatorGetColumnLetter 25 = "Z" ∧
      generatorGetColumnLetter 26 = "AA") ∧
    (∀ i : Nat, lettersToIndex (generatorGetColumnLetter i) = i) ∧
    (∀ i j : Nat, generatorGetColumnLetter i = generatorGetColumnLetter j → i = j) := by
  refine ⟨⟨by decide, by decide, by decide⟩, lettersToIndex_generator, ?_⟩
  intro i j hij
  have hi := lettersToIndex_generator i
  rw [hij, lettersToIndex_generator j] at hi
  exact hi.symm

/-- Witness for C1: the round trip at 702 and injectivity at 3. -/
theorem C1_column_codec_roundtrip_witness :
    lettersToIndex (generatorGetColumnLetter 702) = 702 ∧ (3 : Nat) = 3 :=
  ⟨C1_column_codec_roundtrip.2.1 702, C1_column_codec_roundtrip.2.2 3 3 rfl⟩

/-- C10: the export-service and upload-service copies of
`_get_column_letter` are extensionally equal. -/
theorem C10_column_letter_impls_agree :
    ∀ i : Nat, generatorGetColumnLetter i = uploadGetColumnLetter i :=
  fun _ => rfl

/-- C4: the code, evaluated at the failing input `True`.  Because `bool`
subclasses `int` in Python, `isinstance(value, (int, float))` matches
booleans first and `_format_cell_value` returns `str(True) = "True"`,
never reaching the `"Sí"/"No"` branch; the claim (and the dead branch in
the source) say booleans should map to "Sí"/"No". -/
theorem C4_format_bool_code_bug :
    formatCellValue (.pyBool true) = "True" ∧
    formatCellValue (.pyBool false) = "False" ∧
    formatCellValue (.pyBool true) ≠ "Sí" ∧
    formatCellValue (.pyBool false) ≠ "No" := by
  refine ⟨rfl, rfl, by decide, by decide⟩

/-- C9: `_get_column_db_type` falls back to the generic "text" type when
the information-schema lookup finds no row, and returns the mapped
declared type when the column is found (with unmapped declared types also
defaulting to "text"). -/
theorem C9_column_db_type_failover :
    getColumnDbType none = "text" ∧
    (∀ dataType mapped, (dataType, mapped) ∈ pgTypes →
      getColumnDbType (some dataType) = mapped) ∧
    (∀ dataType, pgTypes.lookup dataType = none →
      getColumnDbType (some dataType) = "text") := by
  refine ⟨rfl, ?_, ?_⟩
  · intro dataType mapped h
    fin_cases h <;> rfl
  · intro dataType h
    simp [getColumnDbType, h]

/-- Witness for C9: a mapped declared type and an absent column. -/
theorem C9_column_db_type_failover_witness :
    getColumnDbType (some "timestamp with time zone") = "timestamptz" ∧
    getColumnDbType none = "text" :=
  ⟨C9_column_db_type_failover.2.1 "timestamp with time zone" "timestamptz"
      (by simp [pgTypes]),
    C9_column_db_type_failover.1⟩

/-- C2 counterexample: a run in which the cast-merge stage fails — an exit
path after the staging table was created — ends with the staging table
still present, so it is not dropped on every exit path. -/
theorem C2_staging_drop_counterexample :
    (uploadExcelToTable envMergeFails false).1.success = false ∧
    (uploadExcelToTable envMergeFails false).2 = true :=
  ⟨rfl, rfl⟩

/-- C2 (amended): the staging table is dropped on the success path of
`upload_excel_to_table`; on every failure path the function performs no
drop at all — the staging bit is either unchanged (failure before the
staging DDL) or left set (failure after it). -/
theorem C2_staging_drop_amended (env : UploadEnv) (before : Bool) :
    ((uploadExcelToTable env before).1.success = true →
      (uploadExcelToTable env before).2 = false) ∧
    ((uploadExcelToTable env before).1.success = false →
      (uploadExcelToTable env before).2 = before ∨
        (uploadExcelToTable env before).2 = true) := by
  obtain ⟨pr, cs, st, cp, mg, dr⟩ := env
  cases pr with
  | error e => simp [uploadExcelToTable, uploadFailure]
  | ok rows =>
    by_cases hr : rows.isEmpty <;>
      cases cs <;> cases st <;> cases cp <;> cases mg <;> cases dr <;>
        simp [uploadExcelToTable, uploadFailure, hr]

/-- Witness for C2 (amended): the success run drops the staging table, and
the failing-merge run leaves it in place. -/
theorem C2_staging_drop_amended_witness :
    (uploadExcelToTable envAllOk false).2 = false ∧
    ((uploadExcelToTable envMergeFails false).2 = false ∨
      (uploadExcelToTable envMergeFails false).2 = true) :=
  ⟨(C2_staging_drop_amended envAllOk false).1 rfl,
    (C2_staging_drop_amended envMergeFails false).2 rfl⟩

/-- The failure shape the claim describes: `success=false`, the stage's
error detail as the one-element error list, the handler's wrapping
message, and zero rows processed. -/
def failsWith (r : UploadResult) (e : String) : Prop :=
  r.success = false ∧ r.errors = some [e] ∧
  r.message = "Error en carga COPY+upsert: " ++ e ∧
  r.rows_processed = 0

/-- C3: `upload_excel_to_table` never propagates an exception: whichever
stage fails first — parse, the empty-rows check, CSV serialization,
staging DDL, bulk load, cast-merge, or the final drop — the caller
receives the structured failure carrying exactly that stage's error
detail; when every stage succeeds the result is the success shape with
the parsed row count; and unconditionally the result is one of those two
well-formed shapes. -/
theorem C3_structured_result (env : UploadEnv) (before : Bool) :
    (∀ e, env.parseResult = .error e →
      failsWith (uploadExcelToTable env before).1 e) ∧
    (∀ rows, env.parseResult = .ok rows → rows.isEmpty = true →
      failsWith (uploadExcelToTable env before).1 "El archivo Excel está vacío") ∧
    (∀ rows e, env.parseResult = .ok rows → rows.isEmpty = false →
      env.csvOutcome = .error e →
      failsWith (uploadExcelToTable env before).1 e) ∧
    (∀ rows e, env.parseResult = .ok rows → rows.isEmpty = false →
      env.csvOutcome = .ok () → env.stageOutcome = .error e →
      failsWith (uploadExcelToTable env before).1 e) ∧
    (∀ rows e, env.parseResult = .ok rows → rows.isEmpty = false →
      env.csvOutcome = .ok () → env.stageOutcome = .ok () →
      env.copyOutcome = .error e →
      failsWith (uploadExcelToTable env before).1 e) ∧
    (∀ rows e, env.parseResult = .ok rows → rows.isEmpty = false →
      env.csvOutcome = .ok () → env.stageOutcome = .ok () →
      env.copyOutcome = .ok () → env.mergeOutcome = .error e →
      failsWith (uploadExcelToTable env before).1 e) ∧
    (∀ rows e, env.parseResult = .ok rows → rows.isEmpty = false →
      env.csvOutcome = .ok () → env.stageOutcome = .ok () →
      env.copyOutcome = .ok () → env.mergeOutcome = .ok () →
      env.dropOutcome = .error e →
      failsWith (uploadExcelToTable env before).1 e) ∧
    (∀ rows, env.parseResult = .ok rows → rows.isEmpty = false →
      env.csvOutcome = .ok () → env.stageOutcome = .ok () →
      env.copyOutcome = .ok () → env.mergeOutcome = .ok () →
      env.dropOutcome = .ok () →
      (uploadExcelToTable env before).1.success = true ∧
      (uploadExcelToTable env before).1.errors = none ∧
      (uploadExcelToTable env before).1.rows_processed = rows.length) ∧
    (((uploadExcelToTable env before).1.success = true ∧
        (uploadExcelToTable env before).1.errors = none) ∨
      ((uploadExcelToTable env before).1.success = false ∧
        ∃ e, (uploadExcelToTable env before).1.errors = some [e] ∧
          (uploadExcelToTable env before).1.message =
            "Error en carga COPY+upsert: " ++ e ∧
          (uploadExcelToTable env before).1.rows_processed = 0)) := by
  obtain ⟨pr, cs, st, cp, mg, dr⟩ := env
  refine ⟨?_, ?_, ?_, ?_, ?_, ?_, ?_, ?_, ?_⟩
  · intro e he
    subst he
    simp [uploadExcelToTable, uploadFailure, failsWith]
  · intro rows hrows hemp
    subst hrows
    simp [uploadExcelToTable, uploadFailure, failsWith, hemp]
  · intro rows e hrows hemp hcsv
    subst hrows
    subst hcsv
    simp [uploadExcelToTable, uploadFailure, failsWith, hemp]
  · intro rows e hrows hemp hcsv hst
    subst hrows
    subst hcsv
    subst hst
    simp [uploadExcelToTable, uploadFailure, failsWith, hemp]
  · intro rows e hrows hemp hcsv hst hcp
    subst hrows
    subst hcsv
    subst hst
    subst hcp
    simp [uploadExcelToTable, uploadFailure, failsWith, hemp]
  · intro rows e hrows hemp hcsv hst hcp hmg
    subst hrows
    subst hcsv
    subst hst
    subst hcp
    subst hmg
    simp [uploadExcelToTable, uploadFailure, failsWith, hemp]
  · intro rows e hrows hemp hcsv hst hcp hmg hdr
    subst hrows
    subst hcsv
    subst hst
    subst hcp
    subst hmg
    subst hdr
    simp [uploadExcelToTable, uploadFailure, failsWith, hemp]
  · intro rows hrows hemp hcsv hst hcp hmg hdr
    subst hrows
    subst hcsv
    subst hst
    subst hcp
    subst hmg
    subst hdr
    simp [uploadExcelToTable, hemp]
  · cases pr with
    | error e => right; exact ⟨rfl, e, rfl, rfl, rfl⟩
    | ok rows =>
      by_cases hr : rows.isEmpty <;>
        cases cs <;> cases st <;> cases cp <;> cases mg <;> cases dr <;>
          simp [uploadExcelToTable, uploadFailure, hr]

/-- Witness for C3: the failing-merge run reports exactly the merge
stage's error detail in the failure shape, and the all-success run
reports success with the parsed row count. -/
theorem C3_structured_result_witness :
    failsWith (uploadExcelToTable envMergeFails false).1
      "column \"x\" does not exist" ∧
    ((uploadExcelToTable envAllOk false).1.success = true ∧
      (uploadExcelToTable envAllOk false).1.errors = none ∧
      (uploadExcelToTable envAllOk false).1.rows_processed =
        [[("id", "1")]].length) :=
  ⟨(C3_structured_result envMergeFails false).2.2.2.2.2.1
      [[("id", "1")]] "column \"x\" does not exist" rfl rfl rfl rfl rfl rfl,
    (C3_structured_result envAllOk false).2.2.2.2.2.2.2.1
      [[("id", "1")]] rfl rfl rfl rfl rfl rfl rfl⟩

/-- The styling oracle of the C8 counterexample: applying the styling on
header column 0 raises a non-`AttributeError` exception. -/
def styleBoom : Nat → Option PyExc :=
  fun c => if c = 0 then some (.otherError "boom") else none

/-- C8 counterexample: a non-`AttributeError` styling failure on the first
header cell aborts the whole write — the error escapes to the
function-level handler and neither the second header nor any data cell is
ever written — so not every kind of styling failure is swallowed. -/
theorem C8_styling_counterexample :
    (writeDataToWorksheet ["a", "b"] [[("a", .pyInt 1)]] styleBoom).2 =
      some "Error escribiendo datos: boom" ∧
    (writeDataToWorksheet ["a", "b"] [[("a", .pyInt 1)]] styleBoom).1 =
      [("A1", "a")] :=
  ⟨rfl, rfl⟩

/-- C8 (amended): styling failures of class `AttributeError` — the only
class the `except` clause catches — are swallowed and never change the
write: the run is identical to one with no styling failures at all. -/
theorem C8_styling_amended (fields : List String) (data : List DataRow)
    (styleOf : Nat → Option PyExc)
    (h : ∀ c, escapesAttributeHandler (styleOf c) = false) :
    writeDataToWorksheet fields data styleOf =
      writeDataToWorksheet fields data (fun _ => none) := by
  have hh : ∀ fs c written, writeHeaders styleOf fs c written =
      writeHeaders (fun _ => none) fs c written := by
    intro fs
    induction fs with
    | nil => intro c written; rfl
    | cons field rest ih =>
      intro c written
      have hc := h c
      rw [writeHeaders, writeHeaders]
      match hs : styleOf c with
      | none => rw [ih]
      | some (.attributeError m) => rw [ih]
      | some (.otherError m) =>
        rw [hs] at hc
        simp [escapesAttributeHandler] at hc
  unfold writeDataToWorksheet
  rw [hh]

/-- Witness for C8 (amended): an `AttributeError` on every styling attempt
leaves the write identical to the failure-free run. -/
theorem C8_styling_amended_witness :
    writeDataToWorksheet ["a"] [[("a", .pyInt 1)]]
        (fun _ => some (.attributeError "Style")) =
      writeDataToWorksheet ["a"] [[("a", .pyInt 1)]] (fun _ => none) :=
  C8_styling_amended ["a"] [[("a", .pyInt 1)]]
    (fun _ => some (.attributeError "Style")) (fun _ => rfl)

/-- C7: `fetch_data` builds a parameterized SELECT over exactly the
requested (quoted) fields, with the equality predicates of the non-`None`
filter entries AND-combined in a WHERE clause (omitted when no entry is
active), a hard `LIMIT 200000` always appended, and the bound parameters
exactly the non-`None` entries; `None`-valued entries appear in neither
the predicate nor the parameters. -/
theorem C7_fetch_query_shape {α : Type} (tableName : String)
    (fields : List String) (filters : List (String × Option α)) :
    (buildFetchQuery tableName fields filters).queryStr =
      "SELECT " ++ String.intercalate ", " (fields.map dquote) ++ " FROM " ++
        dquote tableName ++
        (if (activeFilters filters).isEmpty then ""
          else " WHERE " ++ String.intercalate " AND "
            ((activeFilters filters).map (fun kv => fetchCond kv.1))) ++
        " LIMIT 200000" ∧
    (buildFetchQuery tableName fields filters).params = activeFilters filters := by
  unfold buildFetchQuery
  rw [fetchFold_eq]
  simp only [List.nil_append]
  constructor
  · match ha : activeFilters filters with
    | [] => simp [ha]
    | kv :: rest => simp [ha, String.append_assoc]
  · simp

/-! Substring lemmas used to state "the message lists every invalid
field". -/

theorem charsStartWith_nil (hay : List Char) :
    charsStartWith [] hay = true := by
  cases hay <;> rfl

theorem charsStartWith_self_append (n ys : List Char) :
    charsStartWith n (n ++ ys) = true := by
  induction n with
  | nil => exact charsStartWith_nil ys
  | cons a as ih => simp [charsStartWith, ih]

theorem charsStartWith_extend (n : List Char) :
    ∀ xs ys, charsStartWith n xs = true → charsStartWith n (xs ++ ys) = true := by
  induction n with
  | nil => intro xs ys _; exact charsStartWith_nil _
  | cons a as ih =>
    intro xs ys h
    match xs with
    | [] => exact absurd h (by simp [charsStartWith])
    | b :: bs =>
      simp only [charsStartWith, Bool.and_eq_true] at h
      simp [charsStartWith, h.1, ih bs ys h.2]

theorem charsContain_nil_needle (hay : List Char) :
    charsContain [] hay = true := by
  cases hay <;> simp [charsContain, charsStartWith_nil]

theorem charsContain_append_left (n : List Char) :
    ∀ xs ys, charsContain n ys = true → charsContain n (xs ++ ys) = true := by
  intro xs
  induction xs with
  | nil => intro ys h; simpa using h
  | cons x rest ih =>
    intro ys h
    simp only [List.cons_append, charsContain, Bool.or_eq_true]
    exact Or.inr (ih ys h)

theorem charsContain_append_right (n : List Char) :
    ∀ xs ys, charsContain n xs = true → charsContain n (xs ++ ys) = true := by
  intro xs
  induction xs with
  | nil =>
    intro ys h
    match n, h with
    | [], _ => exact charsContain_nil_needle ys
  | cons x rest ih =>
    intro ys h
    simp only [charsContain, Bool.or_eq_true] at h
    simp only [List.cons_append, charsContain, Bool.or_eq_true]
    rcases h with h | h
    · exact Or.inl (charsStartWith_extend n _ ys h)
    · exact Or.inr (ih ys h)

theorem charsContain_self_append (n ys : List Char) :
    charsContain n (n ++ ys) = true := by
  match n with
  | [] => exact charsContain_nil_needle ys
  | a :: as =>
    simp only [List.cons_append, charsContain, Bool.or_eq_true]
    exact Or.inl (charsStartWith_self_append (a :: as) ys)

theorem strContainsSub_refl (s : String) : strContainsSub s s = true := by
  have := charsContain_self_append s.data []
  simpa [strContainsSub] using this

theorem strContainsSub_append_left (a b n : String)
    (h : strContainsSub b n = true) : strContainsSub (a ++ b) n = true := by
  simp only [strContainsSub, String.data_append]
  exact charsContain_append_left n.data a.data b.data h

theorem strContainsSub_append_right (a b n : String)
    (h : strContainsSub a n = true) : strContainsSub (a ++ b) n = true := by
  simp only [strContainsSub, String.data_append]
  exact charsContain_append_right n.data a.data b.data h

/-- A member of the rendered list occurs in the `", ".join` of the
quoted entries. -/
theorem strContainsSub_joinComma (f : String) :
    ∀ xs : List String, f ∈ xs →
      strContainsSub
        (joinComma (xs.map (fun x => pyQuote ++ x ++ pyQuote))) f = true := by
  intro xs
  induction xs with
  | nil => intro h; cases h
  | cons y rest ih =>
    intro h
    have hqy : strContainsSub (pyQuote ++ y ++ pyQuote) y = true :=
      strContainsSub_append_right _ _ _
        (strContainsSub_append_left _ _ _ (strContainsSub_refl y))
    rcases List.mem_cons.mp h with rfl | hmem
    · match rest with
      | [] => exact hqy
      | z :: rest =>
        show strContainsSub ((pyQuote ++ f ++ pyQuote) ++ ", " ++ _) f = true
        exact strContainsSub_append_right _ _ _
          (strContainsSub_append_right _ _ _ hqy)
    · match rest with
      | [] => cases hmem
      | z :: rest =>
        show strContainsSub ((pyQuote ++ y ++ pyQuote) ++ ", " ++ _) f = true
        have := ih hmem
        rw [String.append_assoc]
        exact strContainsSub_append_left _ _ _
          (strContainsSub_append_left _ _ _ this)

/-- A member of the list occurs in its Python repr. -/
theorem strContainsSub_pyListRepr (f : String) (xs : List String)
    (h : f ∈ xs) : strContainsSub (pyListRepr xs) f = true := by
  unfold pyListRepr
  rw [String.append_assoc]
  exact strContainsSub_append_left _ _ _
    (strContainsSub_append_right _ _ _ (strContainsSub_joinComma f xs h))

/-- C5 counterexample: with a table whose only column is `id` and the
request `["id", "bogus"]`, the export fails before any fetch, but the
raised exception's class is `ExcelGenerationError`, not the
`ValidationError` subclass the claim names. -/
theorem C5_validation_error_counterexample :
    raisedValidationError (generateExcel envExportIdOnly "t" ["id", "bogus"]) = false ∧
    (generateExcel envExportIdOnly "t" ["id", "bogus"]).result =
      .error (.excelGenerationError
        ("Error generando Excel: Campos inválidos para tabla t: [" ++
          pyQuote ++ "bogus" ++ pyQuote ++ "]")) ∧
    (generateExcel envExportIdOnly "t" ["id", "bogus"]).fetchIssued = false :=
  ⟨rfl, rfl, rfl⟩

/-- C5 (amended): when some requested field is not among the table's
columns, `generate_excel` fails with an `ExcelGenerationError` (the base
export error class, not its `ValidationError` subclass) whose message
contains every invalid field, and no data-fetch is issued. -/
theorem C5_invalid_fields_amended (cols : List String) (table : String)
    (fields : List String) (env : GenerateEnv)
    (hcols : env.tableColumns = .ok cols)
    (hinv : fields.filter (fun f => !(cols.contains f)) ≠ []) :
    (generateExcel env table fields).fetchIssued = false ∧
    raisedValidationError (generateExcel env table fields) = false ∧
    ∃ msg, (generateExcel env table fields).result =
        .error (.excelGenerationError msg) ∧
      ∀ f ∈ fields, cols.contains f = false → strContainsSub msg f = true := by
  have hne : (fields.filter (fun f => !(cols.contains f))).isEmpty = false := by
    cases hl : fields.filter (fun f => !(cols.contains f)) with
    | nil => exact absurd hl hinv
    | cons a l => rfl
  unfold generateExcel validateFields
  rw [hcols]
  simp only [hne, Bool.false_eq_true, if_false]
  refine ⟨by trivial, by trivial, _, by rfl, ?_⟩
  intro f hf hc
  have hmem : f ∈ fields.filter (fun f => !(cols.contains f)) :=
    List.mem_filter.mpr ⟨hf, by simpa using hc⟩
  have hrepr := strContainsSub_pyListRepr f _ hmem
  unfold excMsg
  exact strContainsSub_append_left _ _ _
    (strContainsSub_append_left _ _ _ hrepr)

/-- Witness for C5 (amended) at the concrete single-column scenario. -/
theorem C5_invalid_fields_amended_witness :
    (generateExcel envExportIdOnly "t" ["id", "bogus"]).fetchIssued = false ∧
    raisedValidationError (generateExcel envExportIdOnly "t" ["id", "bogus"]) = false ∧
    ∃ msg, (generateExcel envExportIdOnly "t" ["id", "bogus"]).result =
        .error (.excelGenerationError msg) ∧
      ∀ f ∈ ["id", "bogus"], ["id"].contains f = false →
        strContainsSub msg f = true :=
  C5_invalid_fields_amended ["id"] "t" ["id", "bogus"] envExportIdOnly rfl
    (by decide)

/-! Lemmas about the parser's row dict and loops, used by C6. -/

theorem mem_dictInsert (d : ParsedRow) (k v : String) (kv : String × String)
    (h : kv ∈ dictInsert d k v) : kv.1 = k ∨ kv ∈ d := by
  unfold dictInsert at h
  cases ha : d.any (fun p => p.1 == k) with
  | false =>
    rw [ha] at h
    simp only [Bool.false_eq_true, if_false] at h
    rcases List.mem_append.mp h with h | h
    · exact Or.inr h
    · left
      rw [List.mem_singleton.mp h]
  | true =>
    rw [ha] at h
    simp only [if_true] at h
    rcases List.mem_map.mp h with ⟨p, hp, heq⟩
    cases hk : (p.1 == k) with
    | false =>
      rw [hk] at heq
      simp only [Bool.false_eq_true, if_false] at heq
      exact Or.inr (heq ▸ hp)
    | true =>
      rw [hk] at heq
      simp only [if_true] at heq
      left
      rw [← heq]

/-- Every key inserted by the data-row column loop comes from the header
list it indexes into. -/
theorem processRow_keys_aux (headers : List String) (grid : Grid) (r : Nat) :
    ∀ (l : List Nat) (acc : ParsedRow × Bool),
      (∀ kv ∈ acc.1, kv.1 ∈ headers) →
      ∀ kv ∈ (l.foldl (processRowStep headers grid r) acc).1, kv.1 ∈ headers := by
  intro l
  induction l with
  | nil => intro acc hacc kv hkv; exact hacc kv hkv
  | cons c rest ih =>
    intro acc hacc kv hkv
    rw [List.foldl_cons] at hkv
    refine ih (processRowStep headers grid r acc c) ?_ kv hkv
    intro kv' hkv'
    unfold processRowStep at hkv'
    cases hnb : cellNonBlank (cellAt grid r c) with
    | false =>
      rw [hnb] at hkv'
      simp only [Bool.false_eq_true, if_false] at hkv'
      exact hacc kv' hkv'
    | true =>
      rw [hnb] at hkv'
      simp only [if_true] at hkv'
      by_cases hcond : c < headers.length ∧ headers.getD c "" ≠ ""
      · rw [if_pos hcond] at hkv'
        rcases mem_dictInsert _ _ _ _ hkv' with h | h
        · rw [h, List.getD_eq_getElem _ _ hcond.1]
          exact List.getElem_mem hcond.1
        · exact hacc kv' h
      · rw [if_neg hcond] at hkv'
        exact hacc kv' hkv'

theorem processRow_keys (headers : List String) (grid : Grid) (colCount r : Nat) :
    ∀ kv ∈ (processRow headers grid colCount r).1, kv.1 ∈ headers := by
  unfold processRow
  exact processRow_keys_aux headers grid r (List.range colCount) ([], false)
    (by intro kv h; cases h)

/-- Every row the data loop accumulates is either already in the running
list or produced by the column loop on some row index. -/
theorem readRowsLoop_mem (proc : Nat → ParsedRow × Bool) :
    ∀ (n r : Nat) (data : List ParsedRow) (row : ParsedRow),
      row ∈ readRowsLoop proc n r data →
      row ∈ data ∨ ∃ q, row = (proc q).1 := by
  intro n
  induction n with
  | zero => intro r data row h; exact Or.inl h
  | succ n ih =>
    intro r data row h
    rw [readRowsLoop] at h
    by_cases h1 : ((proc r).2 && !(proc r).1.isEmpty) = true
    · rw [if_pos h1] at h
      rcases ih (r + 1) _ row h with hd | he
      · rcases List.mem_append.mp hd with hd | hd
        · exact Or.inl hd
        · exact Or.inr ⟨r, List.mem_singleton.mp hd⟩
      · exact Or.inr he
    · rw [if_neg h1] at h
      by_cases h2 : (!(proc r).2 && !data.isEmpty) = true
      · rw [if_pos h2] at h
        exact Or.inl h
      · rw [if_neg h2] at h
        exact ih (r + 1) data row h

/-- When no header is blank, the blank-header guard in the column loop is
redundant: the loop equals the amended, positionally-keyed loop. -/
theorem processRowStep_eq_amended (headers : List String) (grid : Grid) (r : Nat)
    (hno : ∀ x ∈ headers, x ≠ "") :
    processRowStep headers grid r = amendedProcessRowStep headers grid r := by
  funext acc c
  unfold processRowStep amendedProcessRowStep
  cases hnb : cellNonBlank (cellAt grid r c) with
  | false => simp [hnb]
  | true =>
    simp only [hnb, if_true]
    by_cases hlen : c < headers.length
    · have hx : headers.getD c "" ≠ "" := by
        rw [List.getD_eq_getElem _ _ hlen]
        exact hno _ (List.getElem_mem hlen)
      rw [if_pos ⟨hlen, hx⟩, if_pos hlen]
    · rw [if_neg (fun hh => hlen hh.1), if_neg hlen]

/-- C6 counterexample: with a blank first header, the parsed data row keys
the value of column 0 (`"x"`) under the header `"B"` that sits at column
1, because the filtered header list is indexed positionally; keying each
cell by the header at its own original column (the claim's reading) would
give `"y"` instead. -/
theorem C6_positional_keying_counterexample :
    readExcelFileIronxl gridBlankHeader 2 2 = .ok [[("B", "x")]] ∧
    claimReadExcel gridBlankHeader 2 2 = .ok [[("B", "y")]] ∧
    ([("B", "x")] : ParsedRow) ≠ [("B", "y")] :=
  ⟨rfl, rfl, by decide⟩

/-- C6 (amended): blank header cells never create a key, and each
non-blank data cell is keyed by the *filtered* header list at the cell's
column index (skipping cells at or beyond its length): the parse equals
the filtered-positional parse, and every key of every produced row is a
non-blank member of the filtered header list. -/
theorem C6_header_keying_amended :
    (∀ grid rowCount colCount,
      readExcelFileIronxl grid rowCount colCount =
        amendedReadExcel grid rowCount colCount) ∧
    (∀ grid rowCount colCount data,
      readExcelFileIronxl grid rowCount colCount = .ok data →
      ∀ row ∈ data, ∀ kv ∈ row, kv.1 ≠ "" ∧
        kv.1 ∈ (collectHeaders grid colCount).filter (fun x => x ≠ "")) := by
  constructor
  · intro grid rc cc
    have hno : ∀ x ∈ (collectHeaders grid cc).filter (fun x => x ≠ ""), x ≠ "" := by
      intro x hx
      have := List.mem_filter.mp hx
      simpa using this.2
    have hproc :
        processRow ((collectHeaders grid cc).filter (fun x => x ≠ "")) grid cc =
          amendedProcessRow ((collectHeaders grid cc).filter (fun x => x ≠ "")) grid cc := by
      funext r
      unfold processRow amendedProcessRow
      rw [processRowStep_eq_amended _ grid r hno]
    simp only [readExcelFileIronxl, amendedReadExcel, hproc]
  · intro grid rc cc data heq row hrow kv hkv
    unfold readExcelFileIronxl at heq
    by_cases h0 : rc = 0
    · rw [if_pos h0] at heq
      exact Except.noConfusion heq
    · rw [if_neg h0] at heq
      by_cases hemp : ((collectHeaders grid cc).filter (fun x => x ≠ "")).isEmpty = true
      · rw [if_pos hemp] at heq
        exact Except.noConfusion heq
      · rw [if_neg hemp] at heq
        by_cases hde :
            (readRowsLoop
              (processRow ((collectHeaders grid cc).filter (fun x => x ≠ "")) grid cc)
              (rc - 1) 1 []).isEmpty = true
        · rw [if_pos hde] at heq
          exact Except.noConfusion heq
        · rw [if_neg hde] at heq
          have hdata := Except.ok.inj heq
          rw [← hdata] at hrow
          rcases readRowsLoop_mem _ _ _ _ row hrow with hr | ⟨q, hq⟩
          · cases hr
          · have hkey : kv.1 ∈ (collectHeaders grid cc).filter (fun x => x ≠ "") := by
              rw [hq] at hkv
              exact processRow_keys _ grid cc q kv hkv
            refine ⟨?_, hkey⟩
            have := List.mem_filter.mp hkey
            simpa using this.2

/-- Witness for C6 (amended): on the blank-header grid the single
produced key `"B"` is non-blank and belongs to the filtered header
list. -/
theorem C6_header_keying_amended_witness :
    ("B", "x").1 ≠ "" ∧
    ("B", "x").1 ∈ (collectHeaders gridBlankHeader 2).filter (fun x => x ≠ "") :=
  C6_header_keying_amended.2 gridBlankHeader 2 2 [[("B", "x")]] rfl
    [("B", "x")] (by simp) ("B", "x") (by simp)

end ExcelGen
